import Mathlib

/-!
Shallow embedding of `pandas_redshift/core.py` (ingestion pipeline of a
pandas-to-Redshift loader) and proofs about its behaviour.

Modelling conventions:
* A pandas `DataFrame` is a row count together with an ordered list of named,
  typed columns; a column's `dtype` is the numpy dtype *name* (for example
  "int64", "float64", "object", "bool", "datetime64[ns]").
* Machine strings are Lean `String`s (in this toolchain a `String` wraps a
  `List Char`, so everything below is executable and kernel-reducible).
* Fallible Python code (raised exceptions) is embedded as `Except String`.
* Network effects (warehouse statements, commits, rollbacks, object-store
  uploads) are recorded as an explicit event trace; whether a warehouse
  statement execution succeeds is an oracle parameter `execOk`.
* `date.today()` is an abstract integer day number `today`; dates are carried
  as integer day numbers, so `today - timedelta(days=n)` is `today - n`.
-/

set_option linter.unusedVariables false

namespace PandasRedshift

/-- A cell value of a dataframe.  Real floating point never matters here (the
only float the code manufactures is the literal `0.0`), so float values are
carried as rationals. -/
inductive Value where
  | str (s : String)
  | int (n : Int)
  | bool (b : Bool)
  | float (q : ℚ)
deriving DecidableEq, Repr

/-- A named dataframe column: name, numpy dtype name, and the cell values. -/
structure Column where
  name : String
  dtype : String
  values : List Value
deriving DecidableEq, Repr

/-- A dataframe: the length of the index (row count) and the ordered columns.
Well-formedness (every column has `nrows` values) is a hypothesis of the
theorems that need it, mirroring the pandas invariant. -/
structure DataFrame where
  nrows : Nat
  cols : List Column
deriving DecidableEq, Repr

/-- One observable side effect on the warehouse connection or the object
store. -/
inductive Event where
  | exec (sql : String)
  | commit
  | rollback
  | put (bucket : String) (key : String) (body : String)
      (options : List (String × Option String))
deriving DecidableEq, Repr

/-- The process-wide state set up by `connect_to_s3` (bucket, subdirectory,
credentials); empty string models Python `None`/falsy for the credential
fields, matching the code's truthiness tests. -/
structure GlobalState where
  s3_bucket_var : String
  s3_subdirectory_var : String
  aws_1 : String
  aws_2 : String
  aws_token : String
  aws_role : String
deriving DecidableEq, Repr

/- ---------------------------------------------------------------- -/
/- String helpers (ASCII models of the Python string primitives). -/

/-- ASCII `str.lower` on one character. -/
def lowerChar (c : Char) : Char :=
  if 65 ≤ c.toNat ∧ c.toNat ≤ 90 then Char.ofNat (c.toNat + 32) else c

/-- ASCII model of Python `str.lower`. -/
def toLowerStr (s : String) : String := ⟨s.data.map lowerChar⟩

/-- The characters Python's `\s` regex class and `str.strip` treat as
whitespace (ASCII fragment). -/
def isPySpace (c : Char) : Bool :=
  c == ' ' || c == '\t' || c == '\n' || c == '\r' || c == '\x0B' || c == '\x0C'

/-- Model of Python `str.strip`. -/
def pyStrip (s : String) : String :=
  ⟨((s.data.dropWhile isPySpace).reverse.dropWhile isPySpace).reverse⟩

/-- Whether `re.search(r"\s", s)` finds a match: some character of `s` is
whitespace. -/
def hasWhitespace (s : String) : Bool := s.data.any isPySpace

/-- `'"{0}"'.format(s)`: wrap a name in double quotes. -/
def quoteName (s : String) : String := "\"" ++ s ++ "\""

/-- Wrap a string in single quotes (ASCII 0x27), as the SQL text builders
do with `'{0}'` format patterns. -/
def sq (s : String) : String := "\x27" ++ s ++ "\x27"

/-- Model of Python `str.startswith`. -/
def strStartsWith (s pre : String) : Bool := pre.data.isPrefixOf s.data

/-- Index of the first occurrence of `sub` in a character list (`str.find`
without the `-1` sentinel). -/
def firstIdx (sub : List Char) : List Char → Option Nat
  | [] => if sub.isPrefixOf ([] : List Char) then some 0 else none
  | c :: t =>
    if sub.isPrefixOf (c :: t) then some 0 else (firstIdx sub t).map (· + 1)

/-- First occurrence of `sub` in `s`, if any. -/
def strFind (s sub : String) : Option Nat := firstIdx sub.data s.data

/-- Python `sub in s` for strings. -/
def containsSub (s sub : String) : Bool := (strFind s sub).isSome

/-- Python `s.find(sub)`: the occurrence index, or `-1` when absent. -/
def pyFind (s sub : String) : Int :=
  match strFind s sub with
  | some n => (n : Int)
  | none => -1

/-- `int("".join(digits))` for a nonempty list of digit characters. -/
def digitsToInt (l : List Char) : Int :=
  Int.ofNat (l.foldl (fun n c => n * 10 + (c.toNat - 48)) 0)

/- ---------------------------------------------------------------- -/
/- Type Mapper and defaults (core.py lines 89-102, 185-207). -/

/-- `pd_dtype_to_redshift_dtype` (core.py 185-197): chained
`startswith`/equality dispatch from a numpy dtype name to a Redshift type
keyword, first match wins. -/
def pd_dtype_to_redshift_dtype (dtype : String) : String :=
  if strStartsWith dtype "int64" then "BIGINT"
  else if strStartsWith dtype "int" then "INTEGER"
  else if strStartsWith dtype "float" then "REAL"
  else if strStartsWith dtype "datetime" then "TIMESTAMP"
  else if dtype = "bool" then "BOOLEAN"
  else "VARCHAR(MAX)"

/-- `get_defaults` (core.py 89-102).  The Python code compares the numpy
dtype object against the strings 'object', 'str', 'int', 'bool', 'float'
with `==`; numpy resolves the right-hand side through `np.dtype(...)`, so on
a 64-bit platform those comparisons hold exactly for the dtype *names*
"object", "str_", "int64", "bool" and "float64" respectively (`np.dtype('int')`
is int64, `np.dtype('float')` is float64; "int32"/"float32" match none of
them).  The five Python `if`s test mutually exclusive conditions and reassign
a default of `0`, which is the `else` chain below. -/
def get_defaults (input_type : String) : Value :=
  if input_type = "object" then .str "na"
  else if input_type = "str_" then .str "na"
  else if input_type = "int64" then .int 0
  else if input_type = "bool" then .bool false
  else if input_type = "float64" then .float 0
  else .int 0

/-- The numpy dtype name a pandas column gets when a whole column is assigned
the given scalar (`df[c] = 'na'` gives object, `= 0` int64, `= False` bool,
`= 0.0` float64). -/
def scalarDtype : Value → String
  | .str _ => "object"
  | .int _ => "int64"
  | .bool _ => "bool"
  | .float _ => "float64"

/-- The message of the `TypeError` Python raises for `x in None`. -/
def typeErrMsg : String :=
  "TypeError: argument of type " ++ sq "NoneType" ++ " is not iterable"

/-- `get_column_data_types` (core.py 200-207).  For each column the list
comprehension evaluates `col_name not in json_columns`; when `json_columns`
is `None` (the default) that membership test raises `TypeError`, so the
function only succeeds with `json_columns=None` when the frame has no
columns.  `index` prepends the mapped index dtype. -/
def get_column_data_types (df : DataFrame) (index : Bool) (indexDtype : String)
    (json_columns : Option (List String)) : Except String (List String) :=
  match df.cols.mapM (fun c =>
    match json_columns with
    | none => Except.error typeErrMsg
    | some js =>
      Except.ok (if js.contains c.name then "SUPER"
                 else pd_dtype_to_redshift_dtype c.dtype)) with
  | .error e => .error e
  | .ok base =>
    .ok (if index then pd_dtype_to_redshift_dtype indexDtype :: base else base)

/- ---------------------------------------------------------------- -/
/- Schema Reconciler (core.py 105-125). -/

/-- The column `raw_df[name] = get_defaults(schema_dtype)` creates: every row
holds the type-appropriate default, and the column's dtype is the one pandas
infers from that scalar. -/
def default_column (n : Nat) (sc : Column) : Column :=
  ⟨sc.name, scalarDtype (get_defaults sc.dtype),
    List.replicate n (get_defaults sc.dtype)⟩

/-- The `for schema_col_name in schema_df.columns` loop of
`invalidate_to_schema`: walk the schema columns and append a default-filled
column for each name not already present. -/
def add_missing (n : Nat) : List Column → List Column → List Column
  | acc, [] => acc
  | acc, sc :: rest =>
    if (acc.map Column.name).contains sc.name then add_missing n acc rest
    else add_missing n (acc ++ [default_column n sc]) rest

/-- `invalidate_to_schema` (core.py 105-125): drop columns not in the schema,
add default-filled columns for schema names that are missing, and reorder to
the schema's column order.  A `None` schema, or a schema dataframe with no
rows (`len(schema_df.index) == 0`), is a no-op. -/
def invalidate_to_schema (raw_df : DataFrame) (schema_df : Option DataFrame) :
    DataFrame :=
  match schema_df with
  | none => raw_df
  | some s =>
    if s.nrows = 0 then raw_df
    else
      let kept := raw_df.cols.filter
        (fun c => (s.cols.map Column.name).contains c.name)
      let added := add_missing raw_df.nrows kept s.cols
      ⟨raw_df.nrows,
        s.cols.filterMap (fun sc => added.find? (fun c => c.name == sc.name))⟩

/- ---------------------------------------------------------------- -/
/- Column Name Validator (core.py 128-155). -/

/-- The reserved-word file's lines after `r.strip().lower()` (core.py 136). -/
def normalized_reserved (rrwords : List String) : List String :=
  rrwords.map (fun r => toLowerStr (pyStrip r))

/-- The `ValueError` message for a reserved column name (core.py 144-146). -/
def reservedErrMsg (col : String) : String :=
  "ValueError: DataFrame column name " ++ col ++
    " is a reserve word in redshift"

/-- `validate_column_names` (core.py 128-155), parameterized by the lines of
the bundled `redshift_reserve_words.txt` resource: lower-case every column
name, raise at the first name found in the reserved list, and, if *any*
name contains whitespace, rename *every* column to its double-quoted form. -/
def validate_column_names (rrwords : List String) (df : DataFrame) :
    Except String DataFrame :=
  let rr := normalized_reserved rrwords
  let lowered := df.cols.map (fun c => Column.mk (toLowerStr c.name) c.dtype c.values)
  match (lowered.map Column.name).find? (fun n => rr.contains n) with
  | some n => .error (reservedErrMsg n)
  | none =>
    let there_are_spaces := (lowered.map Column.name).any hasWhitespace
    if there_are_spaces then
      .ok ⟨df.nrows, lowered.map (fun c => Column.mk (quoteName c.name) c.dtype c.values)⟩
    else .ok ⟨df.nrows, lowered⟩

/- ---------------------------------------------------------------- -/
/- Statement Builder: create table (core.py 210-257). -/

/-- The `ValueError` raised for a bad diststyle (core.py 242). -/
def invalidDiststyleMsg : String :=
  "ValueError: diststyle must be either " ++ sq "even" ++ " or " ++ sq "all"

/-- The distribution clause of the create statement (core.py 239-247): with
no distkey the diststyle must be even or all; a distkey overrides the
diststyle silently. -/
def distribution_clause (diststyle distkey : String) : Except String String :=
  if distkey = "" then
    if diststyle = "even" ∨ diststyle = "all" then
      .ok (" diststyle " ++ diststyle)
    else .error invalidDiststyleMsg
  else .ok (" distkey(" ++ distkey ++ ")")

/-- The sortkey clause (core.py 248-251). -/
def sortkey_clause (sort_interleaved : Bool) (sortkey : String) : String :=
  if 0 < sortkey.length then
    (if sort_interleaved then " interleaved" else "") ++
      " sortkey(" ++ sortkey ++ ")"
  else ""

/-- The column list of the create statement (core.py 224-231): the frame's
columns, prefixed by the index name (or literally "index") when the index is
materialized. -/
def table_columns (df : DataFrame) (index : Bool) (indexName : Option String) :
    List String :=
  if index then
    (match indexName with | some n => n | none => "index") :: df.cols.map Column.name
  else df.cols.map Column.name

/-- `'create table {0} ({1})'` with the zipped `col type` pairs
(core.py 234-238). -/
def create_table_base (columns cdts : List String) (name : String) : String :=
  "create table " ++ name ++ " (" ++
    String.intercalate ", " (List.zipWith (fun x y => x ++ " " ++ y) columns cdts)
    ++ ")"

/-- A modelled execution-failure message: the warehouse driver's exception is
abstract, so it is tagged with the failing statement. -/
def execErrMsg (sql : String) : String := "WarehouseExecutionError: " ++ sql

/-- `create_redshift_table` (core.py 210-257): infer column types when no
override list is given (possibly raising, see `get_column_data_types`), build
the create statement, then `drop table if exists`, create, and commit.
Statement execution success is decided by the `execOk` oracle; a failed
statement raises without commit or rollback (there is no try block here). -/
def create_redshift_table (execOk : String → Bool) (df : DataFrame)
    (name : String) (column_data_types : Option (List String)) (index : Bool)
    (indexName : Option String) (indexDtype : String) (append : Bool)
    (diststyle distkey : String) (sort_interleaved : Bool) (sortkey : String)
    (json_columns : Option (List String)) : Except String Unit × List Event :=
  let columns := table_columns df index indexName
  match (match column_data_types with
         | some l => Except.ok l
         | none => get_column_data_types df index indexDtype json_columns) with
  | .error e => (.error e, [])
  | .ok cdts =>
    match distribution_clause diststyle distkey with
    | .error e => (.error e, [])
    | .ok dist =>
      let q := create_table_base columns cdts name ++ dist ++
        sortkey_clause sort_interleaved sortkey
      let dropq := "drop table if exists " ++ name ++ ";"
      if execOk dropq then
        if execOk q then (.ok (), [.exec dropq, .exec q, .commit])
        else (.error (execErrMsg q), [.exec dropq, .exec q])
      else (.error (execErrMsg dropq), [.exec dropq])

/- ---------------------------------------------------------------- -/
/- Statement Builder: bulk copy, and s3_to_redshift (core.py 260-312). -/

/-- The authorization clause (core.py 265-280): warehouse-side IAM role, then
the access-key pair, then the caller-side IAM role, then nothing. -/
def authorization_clause (g : GlobalState) (rs_iam_role : String) : String :=
  if rs_iam_role ≠ "" then
    "\n        iam_role " ++ sq rs_iam_role ++ "\n        "
  else if g.aws_1 ≠ "" ∧ g.aws_2 ≠ "" then
    "\n        access_key_id " ++ sq g.aws_1 ++
      "\n        secret_access_key " ++ sq g.aws_2 ++ "\n        "
  else if g.aws_role ≠ "" then
    "\n        iam_role " ++ sq g.aws_role ++ "\n        "
  else ""

/-- The COPY statement `s3_to_sql` (core.py 262-299), including the optional
region and session-token suffixes and the trailing semicolon. -/
def s3_copy_statement (g : GlobalState)
    (name csv_name rs_iam_role delimiter quotechar dateformat timeformat
      region parameters : String) : String :=
  let bucket_name := "s3://" ++ g.s3_bucket_var ++ "/" ++
    g.s3_subdirectory_var ++ csv_name
  let base := "\n       copy " ++ name ++
    "\n       from " ++ sq bucket_name ++
    "\n       delimiter " ++ sq delimiter ++
    "\n       ignoreheader 1\n       csv quote as " ++ sq quotechar ++
    "\n       dateformat " ++ sq dateformat ++
    "\n       timeformat " ++ sq timeformat ++
    "\n       " ++ authorization_clause g rs_iam_role ++
    "\n       " ++ parameters ++ "\n       "
  let withRegion := if region ≠ "" then base ++ "region " ++ sq region else base
  let withToken :=
    if g.aws_token ≠ "" then
      withRegion ++ "\n\tsession_token " ++ sq g.aws_token
    else withRegion
  withToken ++ ";"

/-- `s3_to_redshift` (core.py 260-312): execute the COPY statement and
commit; on execution failure, roll back and re-raise. -/
def s3_to_redshift (g : GlobalState) (execOk : String → Bool)
    (name csv_name rs_iam_role delimiter quotechar dateformat timeformat
      region parameters : String) : Except String Unit × List Event :=
  let stmt := s3_copy_statement g name csv_name rs_iam_role delimiter
    quotechar dateformat timeformat region parameters
  if execOk stmt then (.ok (), [.exec stmt, .commit])
  else (.error (execErrMsg stmt), [.exec stmt, .rollback])

/- ---------------------------------------------------------------- -/
/- Staging Uploader (core.py 13-19, 158-182). -/

/-- `S3_ACCEPTED_KWARGS` (core.py 13-19), verbatim — including the entry
"CacheControl " whose trailing space is in the source. -/
def S3_ACCEPTED_KWARGS : List String :=
  ["ACL", "Body", "CacheControl ", "ContentDisposition", "ContentEncoding",
   "ContentLanguage", "ContentLength", "ContentMD5", "ContentType", "Expires",
   "GrantFullControl", "GrantRead", "GrantReadACP", "GrantWriteACP",
   "Metadata", "ServerSideEncryption", "StorageClass",
   "WebsiteRedirectLocation", "SSECustomerAlgorithm", "SSECustomerKey",
   "SSECustomerKeyMD5", "SSEKMSKeyId", "RequestPayer", "Tagging"]

/-- The filter both `df_to_s3` (core.py 167-168) and `pandas_to_redshift`
(core.py 373-374) apply to caller kwargs: keep pairs whose key is in
`S3_ACCEPTED_KWARGS` and whose value is not `None`. -/
def accepted_s3_kwargs (kwargs : List (String × Option String)) :
    List (String × Option String) :=
  kwargs.filter (fun kv => S3_ACCEPTED_KWARGS.contains kv.1 && kv.2.isSome)

/-- Rendering of one cell for the CSV body (the body's exact text is not the
subject of any claim; this stands in for pandas `to_csv` cell formatting). -/
def renderValue : Value → String
  | .str s => s
  | .int n => toString n
  | .bool b => if b then "True" else "False"
  | .float q => toString q.num

/-- Model of `data_frame.to_csv(buffer, index=index, sep=delimiter)`: header
line then one line per row, fields joined by the delimiter, with a leading
index field when requested. -/
def to_csv (df : DataFrame) (index : Bool) (delimiter : String) : String :=
  let header := String.intercalate delimiter
    ((if index then [""] else []) ++ df.cols.map Column.name)
  let rows := (List.range df.nrows).map (fun i =>
    String.intercalate delimiter
      ((if index then [toString i] else []) ++
        df.cols.map (fun c => renderValue (c.values.getD i (Value.int 0)))))
  String.intercalate "\n" (header :: rows) ++ "\n"

/-- `df_to_s3` (core.py 158-182): serialize the frame and hand it to
`put_object` under `subdirectory + csv_name`, forwarding only the accepted,
non-null kwargs (the local-backup write is not an object-store event and is
not recorded). -/
def df_to_s3 (g : GlobalState) (df : DataFrame) (csv_name : String)
    (index save_local : Bool) (delimiter : String)
    (kwargs : List (String × Option String)) : Event :=
  .put g.s3_bucket_var (g.s3_subdirectory_var ++ csv_name)
    (to_csv df index delimiter) (accepted_s3_kwargs kwargs)

/-- The options list of a put event (empty for the other events). -/
def put_options : Event → List (String × Option String)
  | .put _ _ _ o => o
  | _ => []

/- ---------------------------------------------------------------- -/
/- Key derivation: _date_converter (core.py 315-332). -/

/-- The message of the `ValueError` that `int('')` raises. -/
def intErrMsg : String := "ValueError: invalid literal for int() with base 10"

/-- The digit characters of `ts[interval_idx:-1]`, i.e. of the slice from the
interval marker up to but excluding the final character. -/
def extract_digits (ts : String) (i : Nat) : List Char :=
  ((ts.data.drop i).dropLast).filter Char.isDigit

/-- `_date_converter` (core.py 315-332).  Only strings containing
"current_date" are touched; among those, if both "interval" and "day" occur,
the result is today minus the number formed from *all* digits of
`ts[interval_idx:-1]` (raising like `int('')` when there are none), and
otherwise the result is today itself.  The result is either the untouched
string or an integer day number. -/
def date_converter (today : Int) (ts : String) : Except String (String ⊕ Int) :=
  if containsSub ts "current_date" then
    let interval_idx : Int := pyFind ts "interval"
    let day_idx : Int := pyFind ts "day"
    if interval_idx ≠ -1 ∧ day_idx ≠ -1 then
      let ds := extract_digits ts interval_idx.toNat
      if ds = [] then .error intErrMsg
      else .ok (.inr (today - digitsToInt ds))
    else .ok (.inr today)
  else .ok (.inl ts)

/-- `str(...)` of a resolved window boundary as it lands in the csv name: a
passthrough string stays itself; a computed date renders through its day
number (the calendar rendering of `datetime.date` is abstracted). -/
def boundary_str : String ⊕ Int → String
  | .inl s => s
  | .inr d => "date:" ++ toString d

/- ---------------------------------------------------------------- -/
/- Pipeline Orchestrator (core.py 81-86, 335-385). -/

/-- `redshift_to_pandas` (core.py 81-86): execute the query and build a frame
from the fetched rows; the frame a successful fetch yields is the oracle
parameter `fetched`. -/
def redshift_to_pandas (execOk : String → Bool) (fetched : DataFrame)
    (sql : String) : Except String DataFrame × List Event :=
  if execOk sql then (.ok fetched, [.exec sql])
  else (.error (execErrMsg sql), [.exec sql])

/-- The tail of `pandas_to_redshift` after validation and schema fetch
(core.py 367-385): reconcile already done, derive the csv name from the two
window boundaries, stage to S3, create the table unless appending, then bulk
copy.  `evs0` carries the events of the optional schema fetch. -/
def pandas_stage_and_load (g : GlobalState) (execOk : String → Bool)
    (today : Int) (df1 : DataFrame) (name ts_start ts_end rs_iam_role : String)
    (column_data_types : Option (List String)) (index : Bool)
    (indexName : Option String) (indexDtype : String) (save_local : Bool)
    (delimiter quotechar dateformat timeformat region : String) (append : Bool)
    (diststyle distkey : String) (sort_interleaved : Bool)
    (sortkey parameters : String) (json_columns : Option (List String))
    (kwargs : List (String × Option String)) (evs0 : List Event) :
    Except String Unit × List Event :=
  match date_converter today ts_start with
  | .error e => (.error e, evs0)
  | .ok t1 =>
    match date_converter today ts_end with
    | .error e => (.error e, evs0)
    | .ok t2 =>
      let csv_name := name ++ "-" ++ boundary_str t1 ++ "_" ++
        boundary_str t2 ++ ".csv"
      let evs1 := evs0 ++
        [df_to_s3 g df1 csv_name index save_local delimiter
          (accepted_s3_kwargs kwargs)]
      if append then
        let r := s3_to_redshift g execOk name csv_name rs_iam_role delimiter
          quotechar dateformat timeformat region parameters
        (r.1, evs1 ++ r.2)
      else
        match create_redshift_table execOk df1 name column_data_types index
          indexName indexDtype append diststyle distkey sort_interleaved
          sortkey json_columns with
        | (.error e, evs2) => (.error e, evs1 ++ evs2)
        | (.ok _, evs2) =>
          let r := s3_to_redshift g execOk name csv_name rs_iam_role delimiter
            quotechar dateformat timeformat region parameters
          (r.1, evs1 ++ evs2 ++ r.2)

/-- `pandas_to_redshift` (core.py 335-385): validate column names first (any
reserved-word failure happens before any event is emitted), fetch a one-row
reference schema when appending, reconcile, then stage and load. -/
def pandas_to_redshift (g : GlobalState) (execOk : String → Bool)
    (rrwords : List String) (fetched : DataFrame) (today : Int)
    (data_frame : DataFrame) (name ts_start ts_end rs_iam_role : String)
    (column_data_types : Option (List String)) (index : Bool)
    (indexName : Option String) (indexDtype : String) (save_local : Bool)
    (delimiter quotechar dateformat timeformat region : String) (append : Bool)
    (diststyle distkey : String) (sort_interleaved : Bool)
    (sortkey parameters : String) (json_columns : Option (List String))
    (kwargs : List (String × Option String)) : Except String Unit × List Event :=
  match validate_column_names rrwords data_frame with
  | .error e => (.error e, [])
  | .ok df0 =>
    if append then
      match redshift_to_pandas execOk fetched
        ("select * from " ++ name ++ " limit 1") with
      | (.error e, evs) => (.error e, evs)
      | (.ok schema_df, evs) =>
        pandas_stage_and_load g execOk today
          (invalidate_to_schema df0 (some schema_df)) name ts_start ts_end
          rs_iam_role column_data_types index indexName indexDtype save_local
          delimiter quotechar dateformat timeformat region append diststyle
          distkey sort_interleaved sortkey parameters json_columns kwargs evs
    else
      pandas_stage_and_load g execOk today (invalidate_to_schema df0 none)
        name ts_start ts_end rs_iam_role column_data_types index indexName
        indexDtype save_local delimiter quotechar dateformat timeformat region
        append diststyle distkey sort_interleaved sortkey parameters
        json_columns kwargs []

/- ---------------------------------------------------------------- -/
/- Helper lemmas about the reconciler's list manipulations. -/

theorem add_missing_nil (n : Nat) (acc : List Column) :
    add_missing n acc [] = acc := rfl

theorem add_missing_cons_pos (n : Nat) (acc : List Column) (sc : Column)
    (rest : List Column) (h : (acc.map Column.name).contains sc.name = true) :
    add_missing n acc (sc :: rest) = add_missing n acc rest := by
  simp only [add_missing]
  rw [if_pos h]

theorem add_missing_cons_neg (n : Nat) (acc : List Column) (sc : Column)
    (rest : List Column)
    (h : ¬ (acc.map Column.name).contains sc.name = true) :
    add_missing n acc (sc :: rest)
      = add_missing n (acc ++ [default_column n sc]) rest := by
  simp only [add_missing]
  rw [if_neg h]

theorem add_missing_eq_append (n : Nat) (l : List Column) :
    ∀ acc : List Column, ∃ t, add_missing n acc l = acc ++ t := by
  induction l with
  | nil => intro acc; exact ⟨[], by simp [add_missing_nil]⟩
  | cons sc rest ih =>
    intro acc
    by_cases h : (acc.map Column.name).contains sc.name = true
    · obtain ⟨t, ht⟩ := ih acc
      exact ⟨t, by rw [add_missing_cons_pos n acc sc rest h, ht]⟩
    · obtain ⟨t, ht⟩ := ih (acc ++ [default_column n sc])
      refine ⟨default_column n sc :: t, ?_⟩
      rw [add_missing_cons_neg n acc sc rest h, ht, List.append_assoc]
      rfl

theorem mem_add_missing_of_mem (n : Nat) (l acc : List Column) (c : Column)
    (hc : c ∈ acc) : c ∈ add_missing n acc l := by
  obtain ⟨t, ht⟩ := add_missing_eq_append n l acc
  rw [ht]; exact List.mem_append_left _ hc

theorem contains_name_iff (acc : List Column) (x : String) :
    (acc.map Column.name).contains x = true ↔ x ∈ acc.map Column.name := by
  simp [List.contains]

theorem name_mem_add_missing (n : Nat) (l : List Column) :
    ∀ acc, ∀ sc ∈ l, sc.name ∈ (add_missing n acc l).map Column.name := by
  induction l with
  | nil => intro acc sc h; cases h
  | cons a rest ih =>
    intro acc sc hsc
    by_cases h : (acc.map Column.name).contains a.name = true
    · rw [add_missing_cons_pos n acc a rest h]
      rcases List.mem_cons.mp hsc with rfl | hm
      · have hmem : sc.name ∈ acc.map Column.name :=
          (contains_name_iff acc sc.name).mp h
        obtain ⟨t, ht⟩ := add_missing_eq_append n rest acc
        rw [ht, List.map_append]
        exact List.mem_append_left _ hmem
      · exact ih acc sc hm
    · rw [add_missing_cons_neg n acc a rest h]
      rcases List.mem_cons.mp hsc with rfl | hm
      · obtain ⟨t, ht⟩ := add_missing_eq_append n rest
          (acc ++ [default_column n sc])
        rw [ht, List.map_append]
        exact List.mem_append_left _ (by simp [default_column])
      · exact ih _ sc hm

theorem find?_append_some {α : Type} (p : α → Bool) (l1 l2 : List α) (c : α)
    (h : l1.find? p = some c) : (l1 ++ l2).find? p = some c := by
  induction l1 with
  | nil => cases h
  | cons a t ih =>
    by_cases hp : p a = true
    · rw [List.find?_cons_of_pos _ hp] at h
      rw [List.cons_append, List.find?_cons_of_pos _ hp]
      exact h
    · rw [List.find?_cons_of_neg _ hp] at h
      rw [List.cons_append, List.find?_cons_of_neg _ hp]
      exact ih h

theorem find?_name_first (l : List Column) (c : Column)
    (hnd : (l.map Column.name).Nodup) (hc : c ∈ l) :
    l.find? (fun x => x.name == c.name) = some c := by
  induction l with
  | nil => cases hc
  | cons a t ih =>
    rw [List.map_cons] at hnd
    have hndc := List.nodup_cons.mp hnd
    rcases List.mem_cons.mp hc with rfl | h
    · exact List.find?_cons_of_pos _ (by simp)
    · have hne : a.name ≠ c.name := by
        intro he
        exact hndc.1 (he ▸ List.mem_map_of_mem _ h)
      rw [List.find?_cons_of_neg _ (by simp [hne])]
      exact ih hndc.2 h

theorem add_missing_nodup (n : Nat) (l : List Column) :
    ∀ acc, ((acc.map Column.name).Nodup) →
      ((add_missing n acc l).map Column.name).Nodup := by
  induction l with
  | nil => intro acc h; rw [add_missing_nil]; exact h
  | cons sc rest ih =>
    intro acc h
    by_cases hc : (acc.map Column.name).contains sc.name = true
    · rw [add_missing_cons_pos n acc sc rest hc]
      exact ih acc h
    · have hnm : sc.name ∉ acc.map Column.name :=
        fun hx => hc ((contains_name_iff acc sc.name).mpr hx)
      rw [add_missing_cons_neg n acc sc rest hc]
      refine ih _ ?_
      rw [List.map_append]
      refine List.Nodup.append h (by simp) ?_
      intro x hx hy
      simp [default_column] at hy
      exact hnm (hy ▸ hx)

theorem add_missing_values (n : Nat) (l : List Column) :
    ∀ acc c, c ∈ add_missing n acc l → c ∈ acc ∨ c.values.length = n := by
  induction l with
  | nil => intro acc c h; rw [add_missing_nil] at h; exact Or.inl h
  | cons sc rest ih =>
    intro acc c h
    by_cases hc : (acc.map Column.name).contains sc.name = true
    · rw [add_missing_cons_pos n acc sc rest hc] at h
      exact ih acc c h
    · rw [add_missing_cons_neg n acc sc rest hc] at h
      rcases ih _ c h with hm | hl
      · rcases List.mem_append.mp hm with h1 | h2
        · exact Or.inl h1
        · right
          have he : c = default_column n sc := by simpa using h2
          rw [he]; simp [default_column]
      · exact Or.inr hl

theorem add_missing_adds (n : Nat) (l : List Column) :
    ∀ acc sc, (l.map Column.name).Nodup → sc ∈ l →
      sc.name ∉ acc.map Column.name →
      default_column n sc ∈ add_missing n acc l := by
  induction l with
  | nil => intro acc sc _ h; cases h
  | cons a rest ih =>
    intro acc sc hnd hsc habs
    rw [List.map_cons] at hnd
    have hndc := List.nodup_cons.mp hnd
    rcases List.mem_cons.mp hsc with rfl | h
    · have hc : ¬ ((acc.map Column.name).contains sc.name = true) :=
        fun hx => habs ((contains_name_iff acc sc.name).mp hx)
      rw [add_missing_cons_neg n acc sc rest hc]
      exact mem_add_missing_of_mem n rest _ _ (by simp)
    · have hscname : sc.name ∈ rest.map Column.name := List.mem_map_of_mem _ h
      have hne : a.name ≠ sc.name := fun he => hndc.1 (he ▸ hscname)
      by_cases hc : (acc.map Column.name).contains a.name = true
      · rw [add_missing_cons_pos n acc a rest hc]
        exact ih acc sc hndc.2 h habs
      · rw [add_missing_cons_neg n acc a rest hc]
        refine ih _ sc hndc.2 h ?_
        rw [List.map_append]
        intro hx
        rcases List.mem_append.mp hx with h1 | h2
        · exact habs h1
        · have : sc.name = a.name := by simpa [default_column] using h2
          exact hne this.symm

theorem filterMap_find_names (added : List Column) :
    ∀ scl : List Column, (∀ sc ∈ scl, sc.name ∈ added.map Column.name) →
      (scl.filterMap
        (fun sc => added.find? (fun c => c.name == sc.name))).map Column.name
        = scl.map Column.name := by
  intro scl
  induction scl with
  | nil => intro _; simp
  | cons sc rest ih =>
    intro h
    have h1 : sc.name ∈ added.map Column.name := h sc (by simp)
    obtain ⟨c, hcmem, hcname⟩ : ∃ c ∈ added, c.name = sc.name := by
      simpa using h1
    have hsome : (added.find? (fun x => x.name == sc.name)).isSome := by
      rw [List.find?_isSome]
      exact ⟨c, hcmem, by simp [hcname]⟩
    obtain ⟨d, hd⟩ := Option.isSome_iff_exists.mp hsome
    have hdname : d.name = sc.name := by simpa using List.find?_some hd
    simp only [List.filterMap_cons, hd, List.map_cons, hdname]
    rw [ih (fun x hx => h x (List.mem_cons_of_mem _ hx))]

theorem invalidate_some_eq (raw s : DataFrame) (hrows : s.nrows ≠ 0) :
    invalidate_to_schema raw (some s)
      = ⟨raw.nrows, s.cols.filterMap (fun sc =>
          (add_missing raw.nrows
            (raw.cols.filter
              (fun c => (s.cols.map Column.name).contains c.name))
            s.cols).find? (fun c => c.name == sc.name))⟩ := by
  simp only [invalidate_to_schema]
  rw [if_neg hrows]

/- ---------------------------------------------------------------- -/
/- Claim theorems. -/

/-- C5: the type mapper returns exactly one warehouse keyword per native
type tag, first matching rule winning: int64 gives BIGINT, other integer
tags INTEGER, floating-point tags REAL, datetime tags TIMESTAMP, bool
BOOLEAN, and everything else (object, category, unknown tags) the
VARCHAR(MAX) text default. -/
theorem C5_type_mapper_total :
    pd_dtype_to_redshift_dtype "int64" = "BIGINT" ∧
    pd_dtype_to_redshift_dtype "int32" = "INTEGER" ∧
    pd_dtype_to_redshift_dtype "int16" = "INTEGER" ∧
    pd_dtype_to_redshift_dtype "int8" = "INTEGER" ∧
    pd_dtype_to_redshift_dtype "float64" = "REAL" ∧
    pd_dtype_to_redshift_dtype "float32" = "REAL" ∧
    pd_dtype_to_redshift_dtype "float16" = "REAL" ∧
    pd_dtype_to_redshift_dtype "datetime64[ns]" = "TIMESTAMP" ∧
    pd_dtype_to_redshift_dtype "datetime64[ns, UTC]" = "TIMESTAMP" ∧
    pd_dtype_to_redshift_dtype "bool" = "BOOLEAN" ∧
    pd_dtype_to_redshift_dtype "object" = "VARCHAR(MAX)" ∧
    pd_dtype_to_redshift_dtype "category" = "VARCHAR(MAX)" ∧
    pd_dtype_to_redshift_dtype "some_unknown_tag" = "VARCHAR(MAX)" :=
  ⟨rfl, rfl, rfl, rfl, rfl, rfl, rfl, rfl, rfl, rfl, rfl, rfl, rfl⟩

/-- C2: column-type inference is *not* total — with the default
`json_columns=None` the membership test `col_name not in json_columns`
raises `TypeError` as soon as the frame has a column, exactly as this
evaluation shows; it succeeds (one keyword per column, SUPER for designated
columns) only when a structured-columns list is actually supplied, or when
the frame has no columns at all. -/
theorem C2_inference_crashes_without_json_columns :
    get_column_data_types ⟨1, [⟨"a", "int64", [.int 1]⟩]⟩ false "int64" none
      = .error typeErrMsg ∧
    get_column_data_types ⟨1, [⟨"a", "int64", [.int 1]⟩]⟩ false "int64"
      (some []) = .ok ["BIGINT"] ∧
    get_column_data_types
      ⟨1, [⟨"a", "int64", [.int 1]⟩, ⟨"b", "object", [.str "x"]⟩]⟩ false
      "int64" (some ["b"]) = .ok ["BIGINT", "SUPER"] ∧
    get_column_data_types ⟨0, []⟩ false "int64" none = .ok [] :=
  ⟨rfl, rfl, rfl, rfl⟩

/-- C3 counterexample: with columns "A B" and "c", validation quotes *both*
columns — the whitespace-free column "c" does not keep its lower-cased name
unquoted, so the renaming is not limited to exactly the whitespace-carrying
columns. -/
theorem C3_counterexample :
    validate_column_names []
        ⟨0, [⟨"A B", "object", []⟩, ⟨"c", "int64", []⟩]⟩
      = .ok ⟨0, [⟨"\"a b\"", "object", []⟩, ⟨"\"c\"", "int64", []⟩]⟩ ∧
    hasWhitespace "c" = false ∧ "\"c\"" ≠ "c" :=
  ⟨rfl, rfl, by decide⟩

/-- C4 counterexample: "interval 3 day" contains both the interval marker
and the day token, yet the resolver passes it through unchanged because it
lacks the additional "current_date" guard the code requires — conversion
does not happen exactly when the claimed pattern is present. -/
theorem C4_counterexample :
    date_converter 0 "interval 3 day" = .ok (.inl "interval 3 day") ∧
    containsSub "interval 3 day" "interval" = true ∧
    containsSub "interval 3 day" "day" = true :=
  ⟨rfl, rfl, rfl⟩

/-- C8 counterexample: a dataset with the single non-reserved column "x y"
passes validation, but its name comes back quoted, not merely lower-cased —
so "passes unchanged except for lower-casing" fails for names containing
whitespace. -/
theorem C8_counterexample :
    validate_column_names [] ⟨0, [⟨"x y", "int64", []⟩]⟩
      = .ok ⟨0, [⟨"\"x y\"", "int64", []⟩]⟩ ∧ "\"x y\"" ≠ "x y" :=
  ⟨rfl, by decide⟩

/-- C9 counterexample: a schema column of dtype float32 absent from the
incoming frame is filled with integer 0 (and the filled column's dtype is
int64), not with the float 0.0 the claim promises for floating-point
columns: the code's dtype comparison `== 'float'` only matches float64. -/
theorem C9_counterexample :
    invalidate_to_schema ⟨1, [⟨"a", "int64", [.int 1]⟩]⟩
        (some ⟨1, [⟨"a", "int64", [.int 0]⟩, ⟨"b", "float32", [.float 0]⟩]⟩)
      = ⟨1, [⟨"a", "int64", [.int 1]⟩, ⟨"b", "int64", [.int 0]⟩]⟩ ∧
    Value.int 0 ≠ Value.float 0 :=
  ⟨rfl, by decide⟩

/-- C6: when execution of the bulk-copy statement fails, `s3_to_redshift`
re-raises the error after a rollback, and no commit is recorded for that
statement. -/
theorem C6_copy_failure_rolls_back (g : GlobalState) (execOk : String → Bool)
    (name csv_name rs_iam_role delimiter quotechar dateformat timeformat
      region parameters : String)
    (h : execOk (s3_copy_statement g name csv_name rs_iam_role delimiter
      quotechar dateformat timeformat region parameters) = false) :
    s3_to_redshift g execOk name csv_name rs_iam_role delimiter quotechar
        dateformat timeformat region parameters
      = (.error (execErrMsg (s3_copy_statement g name csv_name rs_iam_role
          delimiter quotechar dateformat timeformat region parameters)),
         [.exec (s3_copy_statement g name csv_name rs_iam_role delimiter
            quotechar dateformat timeformat region parameters), .rollback]) ∧
    Event.rollback ∈ (s3_to_redshift g execOk name csv_name rs_iam_role
      delimiter quotechar dateformat timeformat region parameters).2 ∧
    Event.commit ∉ (s3_to_redshift g execOk name csv_name rs_iam_role
      delimiter quotechar dateformat timeformat region parameters).2 := by
  have hstmt : s3_to_redshift g execOk name csv_name rs_iam_role delimiter
      quotechar dateformat timeformat region parameters
      = (.error (execErrMsg (s3_copy_statement g name csv_name rs_iam_role
          delimiter quotechar dateformat timeformat region parameters)),
         [.exec (s3_copy_statement g name csv_name rs_iam_role delimiter
            quotechar dateformat timeformat region parameters), .rollback]) := by
    simp only [s3_to_redshift]
    rw [if_neg (by simp [h])]
  refine ⟨hstmt, ?_, ?_⟩
  · rw [hstmt]; simp
  · rw [hstmt]; simp

/-- C6 witness: a concrete failing copy run, discharging the failure
hypothesis with the always-false oracle. -/
theorem C6_copy_failure_rolls_back_witness :
    (s3_to_redshift ⟨"b", "", "", "", "", ""⟩ (fun _ => false) "t" "f.csv" ""
      "," "q" "auto" "auto" "" "").1
      = .error (execErrMsg (s3_copy_statement ⟨"b", "", "", "", "", ""⟩ "t"
          "f.csv" "" "," "q" "auto" "auto" "" "")) ∧
    Event.rollback ∈ (s3_to_redshift ⟨"b", "", "", "", "", ""⟩
      (fun _ => false) "t" "f.csv" "" "," "q" "auto" "auto" "" "").2 := by
  have h := C6_copy_failure_rolls_back ⟨"b", "", "", "", "", ""⟩
    (fun _ => false) "t" "f.csv" "" "," "q" "auto" "auto" "" "" rfl
  exact ⟨by rw [h.1], h.2.1⟩

/-- C10: a staging upload forwards exactly the caller options whose names
are verbatim members of `S3_ACCEPTED_KWARGS` with non-null values; since the
list holds only "CacheControl " with a trailing space, an option named
"CacheControl" is never forwarded. -/
theorem C10_accepted_kwargs (g : GlobalState) (df : DataFrame)
    (csv_name : String) (index save_local : Bool) (delimiter : String)
    (kwargs : List (String × Option String)) :
    (∀ kv : String × Option String,
      kv ∈ put_options (df_to_s3 g df csv_name index save_local delimiter
        kwargs) ↔ kv ∈ kwargs ∧ kv.1 ∈ S3_ACCEPTED_KWARGS ∧ kv.2 ≠ none) ∧
    (∀ v : Option String, ("CacheControl", v) ∉
      put_options (df_to_s3 g df csv_name index save_local delimiter kwargs)) ∧
    "CacheControl " ∈ S3_ACCEPTED_KWARGS ∧
    "CacheControl" ∉ S3_ACCEPTED_KWARGS := by
  have hopt : put_options (df_to_s3 g df csv_name index save_local delimiter
      kwargs) = accepted_s3_kwargs kwargs := rfl
  have hmem : ∀ kv : String × Option String,
      kv ∈ accepted_s3_kwargs kwargs ↔
        kv ∈ kwargs ∧ kv.1 ∈ S3_ACCEPTED_KWARGS ∧ kv.2 ≠ none := by
    intro kv
    simp only [accepted_s3_kwargs, List.mem_filter, Bool.and_eq_true,
      Option.isSome_iff_ne_none, and_assoc]
    constructor
    · rintro ⟨h1, h2, h3⟩
      exact ⟨h1, by simpa [List.contains] using h2, h3⟩
    · rintro ⟨h1, h2, h3⟩
      exact ⟨h1, by simpa [List.contains] using h2, h3⟩
  refine ⟨fun kv => by rw [hopt]; exact hmem kv, ?_, by decide, by decide⟩
  intro v hv
  rw [hopt] at hv
  have := ((hmem ("CacheControl", v)).mp hv).2.1
  exact (by decide : "CacheControl" ∉ S3_ACCEPTED_KWARGS) this

/-- C10 witness: a concrete kwargs list — the accepted non-null "ACL" is
forwarded, the "CacheControl" option is dropped. -/
theorem C10_accepted_kwargs_witness :
    ("ACL", some "private") ∈ put_options (df_to_s3 ⟨"b", "", "", "", "", ""⟩
      ⟨0, []⟩ "k" false false ","
      [("ACL", some "private"), ("CacheControl", some "x"),
        ("Metadata", none)]) ∧
    ("CacheControl", some "x") ∉ put_options (df_to_s3
      ⟨"b", "", "", "", "", ""⟩ ⟨0, []⟩ "k" false false ","
      [("ACL", some "private"), ("CacheControl", some "x"),
        ("Metadata", none)]) := by
  have h := C10_accepted_kwargs ⟨"b", "", "", "", "", ""⟩ ⟨0, []⟩ "k" false
    false ","
    [("ACL", some "private"), ("CacheControl", some "x"), ("Metadata", none)]
  exact ⟨(h.1 _).mpr ⟨by decide, by decide, by decide⟩, h.2.1 (some "x")⟩

/-- C7: the created statement carries exactly one distribution clause — a
supplied distkey always wins silently (no diststyle clause and no error, for
*any* diststyle string), and with no distkey the call errors exactly when
diststyle is neither "even" nor "all", appending the diststyle clause
otherwise. -/
theorem C7_distribution_clause_cases (df : DataFrame) (cdts : List String)
    (name : String) (indexName : Option String) (indexDtype : String)
    (append : Bool) (diststyle distkey : String) (sort_interleaved : Bool)
    (sortkey : String) (json_columns : Option (List String)) :
    (distkey ≠ "" →
      create_redshift_table (fun _ => true) df name (some cdts) false
          indexName indexDtype append diststyle distkey sort_interleaved
          sortkey json_columns
        = (.ok (), [.exec ("drop table if exists " ++ name ++ ";"),
            .exec (create_table_base (df.cols.map Column.name) cdts name ++
              (" distkey(" ++ distkey ++ ")") ++
              sortkey_clause sort_interleaved sortkey), .commit])) ∧
    (distkey = "" → (diststyle = "even" ∨ diststyle = "all") →
      create_redshift_table (fun _ => true) df name (some cdts) false
          indexName indexDtype append diststyle distkey sort_interleaved
          sortkey json_columns
        = (.ok (), [.exec ("drop table if exists " ++ name ++ ";"),
            .exec (create_table_base (df.cols.map Column.name) cdts name ++
              (" diststyle " ++ diststyle) ++
              sortkey_clause sort_interleaved sortkey), .commit])) ∧
    (distkey = "" → diststyle ≠ "even" → diststyle ≠ "all" →
      create_redshift_table (fun _ => true) df name (some cdts) false
          indexName indexDtype append diststyle distkey sort_interleaved
          sortkey json_columns
        = (.error invalidDiststyleMsg, [])) := by
  refine ⟨?_, ?_, ?_⟩
  · intro h
    have hd : distribution_clause diststyle distkey
        = .ok (" distkey(" ++ distkey ++ ")") := by
      simp only [distribution_clause]
      rw [if_neg h]
    simp only [create_redshift_table, hd, table_columns]
    rfl
  · intro h hst
    have hd : distribution_clause diststyle distkey
        = .ok (" diststyle " ++ diststyle) := by
      simp only [distribution_clause]
      rw [if_pos h, if_pos hst]
    simp only [create_redshift_table, hd, table_columns]
    rfl
  · intro h h1 h2
    have hd : distribution_clause diststyle distkey
        = .error invalidDiststyleMsg := by
      simp only [distribution_clause]
      rw [if_pos h, if_neg (by rintro (h3 | h3) <;> [exact h1 h3; exact h2 h3])]
    simp only [create_redshift_table, hd, table_columns]

/-- C7 witness: with a distkey and a bogus diststyle the statement carries
only the distkey clause and no error is raised. -/
theorem C7_distribution_clause_cases_witness :
    create_redshift_table (fun _ => true) ⟨0, [⟨"a", "int64", []⟩]⟩ "t"
        (some ["INTEGER"]) false none "int64" false "bogus" "k" false "" none
      = (.ok (), [.exec ("drop table if exists " ++ "t" ++ ";"),
          .exec (create_table_base ["a"] ["INTEGER"] "t" ++
            (" distkey(" ++ "k" ++ ")") ++ sortkey_clause false ""),
          .commit]) := by
  have h := (C7_distribution_clause_cases ⟨0, [⟨"a", "int64", []⟩]⟩
    ["INTEGER"] "t" none "int64" false "bogus" "k" false "" none).1
    (by decide)
  exact h

/-- C4 amended: boundary resolution requires the "current_date" marker:
strings without it pass through unchanged (even when the interval/day
pattern occurs); strings with it resolve to today unless both "interval" and
"day" occur, in which case the result is today minus the number formed from
all digits between the interval marker and the final character — raising
like `int('')` when that slice has no digit at all. -/
theorem C4_amended (today : Int) (ts : String) :
    (containsSub ts "current_date" = false →
      date_converter today ts = .ok (.inl ts)) ∧
    (containsSub ts "current_date" = true →
      (strFind ts "interval" = none ∨ strFind ts "day" = none) →
      date_converter today ts = .ok (.inr today)) ∧
    (∀ i : Nat, containsSub ts "current_date" = true →
      strFind ts "interval" = some i → (strFind ts "day").isSome = true →
      (extract_digits ts i = [] →
        date_converter today ts = .error intErrMsg) ∧
      (extract_digits ts i ≠ [] →
        date_converter today ts
          = .ok (.inr (today - digitsToInt (extract_digits ts i))))) := by
  refine ⟨?_, ?_, ?_⟩
  · intro h
    simp only [date_converter]
    rw [if_neg (by simp [h])]
  · intro h hor
    simp only [date_converter]
    rw [if_pos h]
    rcases hor with h1 | h1
    · have hp : pyFind ts "interval" = -1 := by simp [pyFind, h1]
      rw [if_neg (by simp [hp])]
    · have hp : pyFind ts "day" = -1 := by simp [pyFind, h1]
      rw [if_neg (by simp [hp])]
  · intro i h hint hday
    have hpi : pyFind ts "interval" = (i : Int) := by simp [pyFind, hint]
    obtain ⟨j, hj⟩ := Option.isSome_iff_exists.mp hday
    have hpj : pyFind ts "day" = (j : Int) := by simp [pyFind, hj]
    have hcond : pyFind ts "interval" ≠ -1 ∧ pyFind ts "day" ≠ -1 := by
      rw [hpi, hpj]
      omega
    constructor
    · intro hd
      simp only [date_converter]
      rw [if_pos h, if_pos hcond, hpi]
      rw [show ((i : Int).toNat) = i from Int.toNat_natCast i]
      rw [if_pos hd]
    · intro hd
      simp only [date_converter]
      rw [if_pos h, if_pos hcond, hpi]
      rw [show ((i : Int).toNat) = i from Int.toNat_natCast i]
      rw [if_neg hd]

/-- C4 witness: the three behaviours at concrete boundaries — passthrough
without "current_date", bare today, and today minus the digits. -/
theorem C4_amended_witness :
    date_converter 3 "abc" = .ok (.inl "abc") ∧
    date_converter 7 "current_date x" = .ok (.inr 7) ∧
    date_converter 5 "current_date interval 12 day x"
      = .ok (.inr (5 - digitsToInt
          (extract_digits "current_date interval 12 day x" 13))) := by
  refine ⟨(C4_amended 3 "abc").1 rfl,
    (C4_amended 7 "current_date x").2.1 rfl (Or.inl rfl), ?_⟩
  exact ((C4_amended 5 "current_date interval 12 day x").2.2 13 rfl rfl
    rfl).2 (by decide)

/-- C1: reconciliation against a reference schema with at least one row
yields exactly the schema's column names in the schema's order, keeps the
row count, keeps every column the right length, and keeps surviving
incoming columns (name, dtype and values) intact. -/
theorem C1_reconciliation_shape (raw s : DataFrame)
    (hrows : s.nrows ≠ 0)
    (hraw : (raw.cols.map Column.name).Nodup)
    (hwf : ∀ c ∈ raw.cols, c.values.length = raw.nrows) :
    (invalidate_to_schema raw (some s)).cols.map Column.name
        = s.cols.map Column.name ∧
    (invalidate_to_schema raw (some s)).nrows = raw.nrows ∧
    (∀ c ∈ (invalidate_to_schema raw (some s)).cols,
      c.values.length = raw.nrows) ∧
    (∀ c ∈ raw.cols, c.name ∈ s.cols.map Column.name →
      c ∈ (invalidate_to_schema raw (some s)).cols) := by
  have hinv := invalidate_some_eq raw s hrows
  have hkept_nodup : ((raw.cols.filter
      (fun c => (s.cols.map Column.name).contains c.name)).map
        Column.name).Nodup :=
    List.Nodup.sublist (List.Sublist.map Column.name (List.filter_sublist _))
      hraw
  refine ⟨?_, ?_, ?_, ?_⟩
  · rw [hinv]
    exact filterMap_find_names _ s.cols
      (fun sc hsc => name_mem_add_missing raw.nrows s.cols _ sc hsc)
  · rw [hinv]
  · intro c hc
    rw [hinv] at hc
    obtain ⟨sc, hscmem, hfind⟩ := List.mem_filterMap.mp hc
    have hcadded := List.mem_of_find?_eq_some hfind
    rcases add_missing_values raw.nrows s.cols _ c hcadded with hk | hn
    · exact hwf c (List.mem_of_mem_filter hk)
    · exact hn
  · intro c hc hname
    have hckept : c ∈ raw.cols.filter
        (fun x => (s.cols.map Column.name).contains x.name) :=
      List.mem_filter.mpr ⟨hc, (contains_name_iff s.cols c.name).mpr hname⟩
    have hfind1 : (raw.cols.filter
        (fun x => (s.cols.map Column.name).contains x.name)).find?
          (fun x => x.name == c.name) = some c :=
      find?_name_first _ c hkept_nodup hckept
    obtain ⟨t, ht⟩ := add_missing_eq_append raw.nrows s.cols
      (raw.cols.filter (fun x => (s.cols.map Column.name).contains x.name))
    have hfind2 : (add_missing raw.nrows
        (raw.cols.filter (fun x => (s.cols.map Column.name).contains x.name))
        s.cols).find? (fun x => x.name == c.name) = some c := by
      rw [ht]
      exact find?_append_some _ _ _ _ hfind1
    obtain ⟨sc, hscmem, hscname⟩ := List.mem_map.mp hname
    rw [hinv]
    refine List.mem_filterMap.mpr ⟨sc, hscmem, ?_⟩
    rw [hscname]
    exact hfind2

/-- C1 witness: a concrete reconciliation — the result columns are exactly
the schema's ("a", "b"), one row, and the surviving column "b" keeps its
value 7. -/
theorem C1_reconciliation_shape_witness :
    (invalidate_to_schema
        ⟨1, [⟨"b", "int64", [.int 7]⟩, ⟨"x", "object", [.str "q"]⟩]⟩
        (some ⟨1, [⟨"a", "object", [.str "z"]⟩,
          ⟨"b", "int64", [.int 0]⟩]⟩)).cols.map Column.name = ["a", "b"] ∧
    (invalidate_to_schema
        ⟨1, [⟨"b", "int64", [.int 7]⟩, ⟨"x", "object", [.str "q"]⟩]⟩
        (some ⟨1, [⟨"a", "object", [.str "z"]⟩,
          ⟨"b", "int64", [.int 0]⟩]⟩)).nrows = 1 ∧
    Column.mk "b" "int64" [.int 7] ∈ (invalidate_to_schema
        ⟨1, [⟨"b", "int64", [.int 7]⟩, ⟨"x", "object", [.str "q"]⟩]⟩
        (some ⟨1, [⟨"a", "object", [.str "z"]⟩,
          ⟨"b", "int64", [.int 0]⟩]⟩)).cols := by
  have h := C1_reconciliation_shape
    ⟨1, [⟨"b", "int64", [.int 7]⟩, ⟨"x", "object", [.str "q"]⟩]⟩
    ⟨1, [⟨"a", "object", [.str "z"]⟩, ⟨"b", "int64", [.int 0]⟩]⟩
    (by decide) (by decide) (by decide)
  refine ⟨?_, ?_, ?_⟩
  · rw [h.1]; rfl
  · rw [h.2.1]
  · exact h.2.2.2 ⟨"b", "int64", [.int 7]⟩ (by decide) (by decide)

/-- C9 amended: a schema column absent from the incoming frame is added,
filled in every row with `get_defaults` of its dtype — "na" for object
dtype, 0 for int64, false for bool, 0.0 for float64, and integer 0 for
every other dtype (including other float widths such as float32). -/
theorem C9_default_fill (raw s : DataFrame) (sc : Column)
    (hrows : s.nrows ≠ 0)
    (hraw : (raw.cols.map Column.name).Nodup)
    (hs : (s.cols.map Column.name).Nodup)
    (hsc : sc ∈ s.cols)
    (habs : sc.name ∉ raw.cols.map Column.name) :
    Column.mk sc.name (scalarDtype (get_defaults sc.dtype))
        (List.replicate raw.nrows (get_defaults sc.dtype))
      ∈ (invalidate_to_schema raw (some s)).cols ∧
    get_defaults "object" = .str "na" ∧
    get_defaults "int64" = .int 0 ∧
    get_defaults "bool" = .bool false ∧
    get_defaults "float64" = .float 0 ∧
    (sc.dtype ∉ (["object", "str_", "int64", "bool", "float64"] :
        List String) → get_defaults sc.dtype = .int 0) := by
  have hkept_nodup : ((raw.cols.filter
      (fun c => (s.cols.map Column.name).contains c.name)).map
        Column.name).Nodup :=
    List.Nodup.sublist (List.Sublist.map Column.name (List.filter_sublist _))
      hraw
  have habs2 : sc.name ∉ (raw.cols.filter
      (fun c => (s.cols.map Column.name).contains c.name)).map Column.name :=
    fun hx => habs
      ((List.Sublist.map Column.name (List.filter_sublist _)).subset hx)
  have hdc := add_missing_adds raw.nrows s.cols
    (raw.cols.filter (fun c => (s.cols.map Column.name).contains c.name))
    sc hs hsc habs2
  have hnodup_added := add_missing_nodup raw.nrows s.cols
    (raw.cols.filter (fun c => (s.cols.map Column.name).contains c.name))
    hkept_nodup
  have hfind := find?_name_first _ _ hnodup_added hdc
  refine ⟨?_, rfl, rfl, rfl, rfl, ?_⟩
  · rw [invalidate_some_eq raw s hrows]
    exact List.mem_filterMap.mpr ⟨sc, hsc, hfind⟩
  · intro h
    have h1 : sc.dtype ≠ "object" := fun he => h (by rw [he]; decide)
    have h2 : sc.dtype ≠ "str_" := fun he => h (by rw [he]; decide)
    have h3 : sc.dtype ≠ "int64" := fun he => h (by rw [he]; decide)
    have h4 : sc.dtype ≠ "bool" := fun he => h (by rw [he]; decide)
    have h5 : sc.dtype ≠ "float64" := fun he => h (by rw [he]; decide)
    simp [get_defaults, h1, h2, h3, h4, h5]

/-- C9 witness: the float32 schema column "b", absent from the incoming
one-column frame, lands in the result filled with its computed default. -/
theorem C9_default_fill_witness :
    Column.mk "b" (scalarDtype (get_defaults "float32"))
        (List.replicate 1 (get_defaults "float32"))
      ∈ (invalidate_to_schema ⟨1, [⟨"a", "int64", [.int 1]⟩]⟩
          (some ⟨1, [⟨"a", "int64", [.int 0]⟩,
            ⟨"b", "float32", [.float 0]⟩]⟩)).cols :=
  (C9_default_fill ⟨1, [⟨"a", "int64", [.int 1]⟩]⟩
    ⟨1, [⟨"a", "int64", [.int 0]⟩, ⟨"b", "float32", [.float 0]⟩]⟩
    ⟨"b", "float32", [.float 0]⟩
    (by decide) (by decide) (by decide) (by decide) (by decide)).1

/-- C3 amended: after a successful validation the column names are the
lower-cased originals, all of them double-quoted when any lower-cased name
contains whitespace and none of them quoted otherwise — the quoting is
all-or-nothing, not per-column. -/
theorem C3_quoting_all_or_nothing (rrwords : List String) (df df2 : DataFrame)
    (h : validate_column_names rrwords df = .ok df2) :
    df2.cols.map Column.name =
      (if (df.cols.map (fun c => toLowerStr c.name)).any hasWhitespace then
        df.cols.map (fun c => quoteName (toLowerStr c.name))
      else df.cols.map (fun c => toLowerStr c.name)) := by
  have hnames : ((df.cols.map (fun c =>
      Column.mk (toLowerStr c.name) c.dtype c.values)).map Column.name)
      = df.cols.map (fun c => toLowerStr c.name) := by
    rw [List.map_map]
    rfl
  simp only [validate_column_names] at h
  split at h
  · exact Except.noConfusion h
  · split at h
    · next hws =>
      cases h
      rw [hnames] at hws
      rw [if_pos hws, List.map_map, List.map_map]
      rfl
    · next hws =>
      cases h
      rw [hnames] at hws
      rw [if_neg hws]
      exact hnames

/-- C3 witness: validating the one-column frame "A B" discharges the
success hypothesis at a concrete input. -/
theorem C3_quoting_all_or_nothing_witness :
    (⟨0, [⟨"\"a b\"", "object", []⟩]⟩ : DataFrame).cols.map Column.name =
      (if ((⟨0, [⟨"A B", "object", []⟩]⟩ : DataFrame).cols.map
          (fun c => toLowerStr c.name)).any hasWhitespace then
        (⟨0, [⟨"A B", "object", []⟩]⟩ : DataFrame).cols.map
          (fun c => quoteName (toLowerStr c.name))
      else (⟨0, [⟨"A B", "object", []⟩]⟩ : DataFrame).cols.map
          (fun c => toLowerStr c.name)) :=
  C3_quoting_all_or_nothing [] ⟨0, [⟨"A B", "object", []⟩]⟩
    ⟨0, [⟨"\"a b\"", "object", []⟩]⟩ rfl

/-- C8 amended: validation fails (with the reserved-word error) exactly when
some lower-cased column name is in the normalized reserved list; in the
pipeline that failure produces an empty event trace — no warehouse statement
and no upload; and a frame with no reserved and no whitespace-bearing names
passes with its names merely lower-cased. -/
theorem C8_reserved_words (rrwords : List String) (df : DataFrame)
    (g : GlobalState) (execOk : String → Bool) (fetched : DataFrame)
    (today : Int) (name ts_start ts_end rs_iam_role : String)
    (column_data_types : Option (List String)) (index : Bool)
    (indexName : Option String) (indexDtype : String) (save_local : Bool)
    (delimiter quotechar dateformat timeformat region : String)
    (append : Bool) (diststyle distkey : String) (sort_interleaved : Bool)
    (sortkey parameters : String) (json_columns : Option (List String))
    (kwargs : List (String × Option String)) :
    ((∃ m, validate_column_names rrwords df = .error m) ↔
      ∃ c ∈ df.cols, toLowerStr c.name ∈ normalized_reserved rrwords) ∧
    (∀ m, validate_column_names rrwords df = .error m →
      pandas_to_redshift g execOk rrwords fetched today df name ts_start
        ts_end rs_iam_role column_data_types index indexName indexDtype
        save_local delimiter quotechar dateformat timeformat region append
        diststyle distkey sort_interleaved sortkey parameters json_columns
        kwargs = (.error m, [])) ∧
    ((∀ c ∈ df.cols, toLowerStr c.name ∉ normalized_reserved rrwords) →
     (∀ c ∈ df.cols, hasWhitespace (toLowerStr c.name) = false) →
     validate_column_names rrwords df = .ok ⟨df.nrows, df.cols.map
       (fun c => Column.mk (toLowerStr c.name) c.dtype c.values)⟩) := by
  have hnames : ((df.cols.map (fun c =>
      Column.mk (toLowerStr c.name) c.dtype c.values)).map Column.name)
      = df.cols.map (fun c => toLowerStr c.name) := by
    rw [List.map_map]
    rfl
  refine ⟨⟨?_, ?_⟩, ?_, ?_⟩
  · rintro ⟨m, hm⟩
    simp only [validate_column_names] at hm
    split at hm
    · next n heq =>
      have hp := List.find?_some heq
      have hnmem := List.mem_of_find?_eq_some heq
      rw [hnames] at hnmem
      obtain ⟨c, hc, hcn⟩ := List.mem_map.mp hnmem
      refine ⟨c, hc, ?_⟩
      rw [hcn]
      simpa [List.contains] using hp
    · split at hm <;> exact Except.noConfusion hm
  · rintro ⟨c, hc, hres⟩
    cases hfind : ((df.cols.map (fun c =>
        Column.mk (toLowerStr c.name) c.dtype c.values)).map
          Column.name).find? (fun n => (normalized_reserved rrwords).contains n)
      with
    | none =>
      exfalso
      have hmem : toLowerStr c.name ∈ (df.cols.map (fun c =>
          Column.mk (toLowerStr c.name) c.dtype c.values)).map Column.name := by
        rw [hnames]
        exact List.mem_map_of_mem _ hc
      have := List.find?_eq_none.mp hfind _ hmem
      exact this (by simpa [List.contains] using hres)
    | some n =>
      exact ⟨reservedErrMsg n, by
        simp only [validate_column_names]
        rw [hfind]⟩
  · intro m hm
    simp [pandas_to_redshift, hm]
  · intro h1 h2
    have hfind : ((df.cols.map (fun c =>
        Column.mk (toLowerStr c.name) c.dtype c.values)).map
          Column.name).find? (fun n => (normalized_reserved rrwords).contains n)
        = none := by
      rw [List.find?_eq_none]
      intro x hx
      rw [hnames] at hx
      obtain ⟨c, hc, hcx⟩ := List.mem_map.mp hx
      intro hcontains
      exact h1 c hc (by
        rw [hcx]
        simpa [List.contains] using hcontains)
    have hws : ((df.cols.map (fun c =>
        Column.mk (toLowerStr c.name) c.dtype c.values)).map
          Column.name).any hasWhitespace = false := by
      rw [List.any_eq_false]
      intro x hx
      rw [hnames] at hx
      obtain ⟨c, hc, hcx⟩ := List.mem_map.mp hx
      rw [← hcx]
      simp [h2 c hc]
    simp only [validate_column_names]
    rw [hfind, if_neg (by rw [hws]; exact Bool.false_ne_true)]

/-- C8 witness: the concrete reserved column "SELECT" makes the pipeline
fail with the reserved-word error and an empty event trace. -/
theorem C8_reserved_words_witness :
    pandas_to_redshift ⟨"b", "", "", "", "", ""⟩ (fun _ => true) ["select"]
        ⟨0, []⟩ 0 ⟨0, [⟨"SELECT", "object", []⟩]⟩ "t" "a" "b" "" none false
        none "int64" false "," "q" "auto" "auto" "" false "even" "" false ""
        "" none []
      = (.error (reservedErrMsg "select"), []) :=
  (C8_reserved_words ["select"] ⟨0, [⟨"SELECT", "object", []⟩]⟩
    ⟨"b", "", "", "", "", ""⟩ (fun _ => true) ⟨0, []⟩ 0 "t" "a" "b" "" none
    false none "int64" false "," "q" "auto" "auto" "" false "even" "" false
    "" "" none []).2.1 (reservedErrMsg "select") rfl

end PandasRedshift
